import Mathlib

/-!
Verification of the retail replenishment decision agent (`retail_agent.py`).

The Python module is embedded shallowly:

* Python floats become exact rationals (`ℚ`); Python ints become `ℤ` / `ℕ`.
* `math.sqrt` is kept abstract as a parameter `sqrt : ℚ → ℚ`, because the
  square root of a rational need not be rational.  Every verified property is
  independent of the values of this function; where a concrete fact about the
  source's square root is needed (only `sqrt 0 = 0`), it appears as an explicit
  hypothesis.
* `math.ceil` becomes `Int.ceil`; `statistics.mean`, `statistics.pvariance`
  and `statistics.pstdev` are spelled out (the `statistics` module computes
  them with exact fraction arithmetic, so `ℚ` is faithful up to the final
  square root of `pstdev`, which goes through the abstract `sqrt`).
* The `ValueError` raised by `RetailDecisionAgent.__init__` becomes the
  `Except.error` branch of a total constructor function.
-/

set_option maxRecDepth 4000

/-- The `SERVICE_Z` table (source lines 21-28); keys are listed in ascending
order, exactly as in the source, so Python's `sorted(SERVICE_Z)` is the list
of first components as written. -/
def SERVICE_Z : List (ℚ × ℚ) :=
  [(80/100, 84/100), (85/100, 104/100), (90/100, 128/100),
   (95/100, 165/100), (97/100, 188/100), (99/100, 233/100)]

/-- The `ReplenishmentDecision` dataclass (source lines 31-39).
`recommended_order_qty` is an `int` in the source (result of `math.ceil`). -/
structure ReplenishmentDecision where
  forecast_demand : ℚ
  demand_std : ℚ
  estimated_lead_time_days : ℚ
  safety_stock : ℚ
  reorder_point : ℚ
  target_stock : ℚ
  recommended_order_qty : ℤ
deriving DecidableEq, Repr

/-- The configuration carried by a `RetailDecisionAgent` (source lines 60-63). -/
structure RetailDecisionAgent where
  service_level : ℚ
  review_period_days : ℤ
  alpha : ℚ
  demand_window : ℕ
deriving DecidableEq, Repr

/-- `", ".join(str(k) for k in sorted(SERVICE_Z))` (source line 58); rational
literals are rendered in reduced-fraction form rather than Python float form. -/
def validLevelsStr : String :=
  String.intercalate ", " ((SERVICE_Z.map Prod.fst).map (fun q => toString q))

/-- `RetailDecisionAgent.__init__` (source lines 50-63): the only validation
performed is membership of `service_level` in the keys of `SERVICE_Z`; on
failure a `ValueError` whose message lists the valid keys is raised. -/
def RetailDecisionAgent.init (service_level : ℚ) (review_period_days : ℤ)
    (alpha : ℚ) (demand_window : ℕ) : Except String RetailDecisionAgent :=
  if service_level ∈ SERVICE_Z.map Prod.fst then
    Except.ok ⟨service_level, review_period_days, alpha, demand_window⟩
  else
    Except.error ("service_level inválido. Use um de: " ++ validLevelsStr)

/-- `_exp_smoothing_forecast` (source lines 65-71). -/
def expSmoothingForecast (alpha : ℚ) (history : List ℚ) : ℚ :=
  match history with
  | [] => 0
  | h :: t => max 0 (t.foldl (fun level value => alpha * value + (1 - alpha) * level) h)

/-- `statistics.mean` on rationals (division by zero yields 0 in `ℚ`, but every
call site supplies a non-empty list). -/
def listMean (l : List ℚ) : ℚ := l.sum / (l.length : ℚ)

/-- `statistics.pvariance`: population variance about the mean. -/
def pvariance (l : List ℚ) : ℚ :=
  ((l.map (fun x => (x - listMean l) * (x - listMean l))).sum) / (l.length : ℚ)

/-- `_recent_std` (source lines 73-76): `statistics.pstdev`, i.e. the square
root of the population variance, guarded to 0 on windows shorter than 2. -/
def recentStd (sqrt : ℚ → ℚ) (history : List ℚ) : ℚ :=
  if history.length < 2 then 0 else sqrt (pvariance history)

/-- `demand_history[-self.demand_window:] if demand_history else []` (source
line 85).  The `window = 0` branch mirrors Python's `l[-0:] = l`. -/
def recentWindow (window : ℕ) (history : List ℚ) : List ℚ :=
  if history.isEmpty then []
  else if window = 0 then history
  else history.drop (history.length - window)

/-- `lead_hist = lead_time_history or [7.0]` (source line 89): Python `or`
replaces both `None` and the empty list by the default `[7.0]`. -/
def leadHistOrDefault : Option (List ℚ) → List ℚ
  | none => [7]
  | some [] => [7]
  | some (x :: xs) => x :: xs

/-- `lead_time = max(1.0, statistics.mean(lead_hist))` (source line 90). -/
def leadTimeOf (lead_time_history : Option (List ℚ)) : ℚ :=
  max 1 (listMean (leadHistOrDefault lead_time_history))

/-- `SERVICE_Z[self.service_level]` (source line 91).  The constructor
guarantees the key is present; the `getD 0` default is unreachable for agents
built by `RetailDecisionAgent.init`. -/
def zOf (service_level : ℚ) : ℚ :=
  ((SERVICE_Z.find? (fun p => p.1 == service_level)).map Prod.snd).getD 0

/-- `RetailDecisionAgent.recommend` (source lines 78-110). -/
def RetailDecisionAgent.recommend (agent : RetailDecisionAgent) (sqrt : ℚ → ℚ)
    (demand_history : List ℚ) (inventory_on_hand inventory_on_order : ℚ)
    (lead_time_history : Option (List ℚ)) : ReplenishmentDecision :=
  let recent := recentWindow agent.demand_window demand_history
  let forecast_daily := expSmoothingForecast agent.alpha recent
  let demand_std := recentStd sqrt recent
  let lead_time := leadTimeOf lead_time_history
  let z := zOf agent.service_level
  let safety_stock := z * demand_std * sqrt lead_time
  let reorder_point := forecast_daily * lead_time + safety_stock
  let protection_days := lead_time + (agent.review_period_days : ℚ)
  let target_stock := forecast_daily * protection_days + safety_stock
  let net_stock := inventory_on_hand + inventory_on_order
  let recommended := max 0 (target_stock - net_stock)
  ⟨forecast_daily, demand_std, lead_time, safety_stock, reorder_point,
    target_stock, Int.ceil recommended⟩

/-- The mutable loop state of `run_validation` (source lines 144-150).
Pipeline entries are `(arrival_day, qty)` pairs; `arrival_day` is an `ℤ`
because `day + lead_time_days` is computed without any sign restriction on
`lead_time_days`, and `qty` is the `int` returned by `recommend`. -/
structure SimState where
  inventory : ℚ
  pipeline : List (ℤ × ℤ)
  stockout_days : ℕ
  total_shortage : ℚ
  total_holding : ℚ
  placed_orders : ℕ
deriving DecidableEq, Repr

/-- `[q for arrival, q in pipeline if arrival == day]` kept as full pairs
(source line 155). -/
def arrivalsList (day : ℕ) (pipeline : List (ℤ × ℤ)) : List (ℤ × ℤ) :=
  pipeline.filter (fun p => p.1 == (day : ℤ))

/-- `[(arrival, q) for arrival, q in pipeline if arrival != day]`
(source line 158): the pipeline that remains after the day's arrivals, the one
whose quantities constitute `on_order`. -/
def onOrderPipeline (day : ℕ) (pipeline : List (ℤ × ℤ)) : List (ℤ × ℤ) :=
  pipeline.filter (fun p => p.1 != (day : ℤ))

/-- On-hand inventory right after the arrivals step (source lines 155-157):
`if arrivals: inventory += sum(arrivals)`. -/
def afterArrivalInventory (day : ℕ) (s : SimState) : ℚ :=
  let arrivals := (arrivalsList day s.pipeline).map Prod.snd
  if arrivals.isEmpty then s.inventory else s.inventory + (arrivals.sum : ℚ)

/-- The decision the agent takes on `day` (source lines 160-167): history is
`demand[:day]`, on-hand is the post-arrival inventory, on-order sums the
remaining pipeline, and the lead-time history is the singleton
`[lead_time_days]`. -/
def dayDecision (agent : RetailDecisionAgent) (sqrt : ℚ → ℚ) (demand : List ℚ)
    (lead_time_days : ℤ) (day : ℕ) (s : SimState) : ReplenishmentDecision :=
  agent.recommend sqrt (demand.take day) (afterArrivalInventory day s)
    ((((onOrderPipeline day s.pipeline).map Prod.snd).sum : ℤ) : ℚ)
    (some [(lead_time_days : ℚ)])

/-- The reorder condition (source lines 169-171): net position at or below the
reorder point, and a strictly positive recommended quantity. -/
def orderTriggered (agent : RetailDecisionAgent) (sqrt : ℚ → ℚ) (demand : List ℚ)
    (lead_time_days : ℤ) (day : ℕ) (s : SimState) : Bool :=
  decide (afterArrivalInventory day s
        + ((((onOrderPipeline day s.pipeline).map Prod.snd).sum : ℤ) : ℚ)
      ≤ (dayDecision agent sqrt demand lead_time_days day s).reorder_point)
    && decide (0 < (dayDecision agent sqrt demand lead_time_days day s).recommended_order_qty)

/-- One iteration of the simulation loop (source lines 154-184), in the exact
order of the source: arrivals, decision, reorder check, demand realization,
holding accrual. -/
def simDay (agent : RetailDecisionAgent) (sqrt : ℚ → ℚ) (demand : List ℚ)
    (lead_time_days : ℤ) (s : SimState) (day : ℕ) : SimState :=
  let inventory1 := afterArrivalInventory day s
  let pipeline1 := onOrderPipeline day s.pipeline
  let pipeline2 := if orderTriggered agent sqrt demand lead_time_days day s
    then pipeline1 ++ [((day : ℤ) + lead_time_days,
      (dayDecision agent sqrt demand lead_time_days day s).recommended_order_qty)]
    else pipeline1
  let placed2 := if orderTriggered agent sqrt demand lead_time_days day s
    then s.placed_orders + 1 else s.placed_orders
  let today_demand := demand.getD day 0
  let inventory2 := if today_demand ≤ inventory1 then inventory1 - today_demand else 0
  let stockout2 := if today_demand ≤ inventory1 then s.stockout_days else s.stockout_days + 1
  let shortage2 := if today_demand ≤ inventory1 then s.total_shortage
    else s.total_shortage + (today_demand - inventory1)
  ⟨inventory2, pipeline2, stockout2, shortage2, s.total_holding + inventory2, placed2⟩

/-- Folding the loop body over a list of days. -/
def simTrace (agent : RetailDecisionAgent) (sqrt : ℚ → ℚ) (demand : List ℚ)
    (lead_time_days : ℤ) (days : List ℕ) (s : SimState) : SimState :=
  days.foldl (simDay agent sqrt demand lead_time_days) s

/-- The initial loop state (source lines 144-150). -/
def initState (initial_inventory : ℚ) : SimState :=
  ⟨initial_inventory, [], 0, 0, 0, 0⟩

/-- `start = max(30, min(45, len(demand) // 3))` (source line 152). -/
def runStart (demand : List ℚ) : ℕ :=
  max 30 (min 45 (demand.length / 3))

/-- `range(start, len(demand))` (source line 154). -/
def runDays (demand : List ℚ) : List ℕ :=
  List.range' (runStart demand) (demand.length - runStart demand)

/-- `periods = len(demand) - start` (source line 186): a Python `int`, which is
negative when the series is shorter than the warm-up start day. -/
def runPeriods (demand : List ℚ) : ℤ :=
  (demand.length : ℤ) - (runStart demand : ℤ)

/-- The state after the whole loop of `run_validation`. -/
def runFinal (agent : RetailDecisionAgent) (sqrt : ℚ → ℚ) (demand : List ℚ)
    (initial_inventory : ℚ) (lead_time_days : ℤ) : SimState :=
  simTrace agent sqrt demand lead_time_days (runDays demand) (initState initial_inventory)

/-- The metrics dict returned by `run_validation` (source lines 187-193). -/
structure Metrics where
  periods : ℤ
  stockout_rate : ℚ
  avg_ending_inventory : ℚ
  total_shortage_units : ℚ
  orders_placed : ℕ
deriving DecidableEq, Repr

/-- `run_validation` (source lines 138-193). -/
def run_validation (agent : RetailDecisionAgent) (sqrt : ℚ → ℚ) (demand : List ℚ)
    (initial_inventory : ℚ) (lead_time_days : ℤ) : Metrics :=
  ⟨runPeriods demand,
    if runPeriods demand = 0 then 0
      else ((runFinal agent sqrt demand initial_inventory lead_time_days).stockout_days : ℚ)
        / ((runPeriods demand : ℤ) : ℚ),
    if runPeriods demand = 0 then 0
      else (runFinal agent sqrt demand initial_inventory lead_time_days).total_holding
        / ((runPeriods demand : ℤ) : ℚ),
    (runFinal agent sqrt demand initial_inventory lead_time_days).total_shortage,
    (runFinal agent sqrt demand initial_inventory lead_time_days).placed_orders⟩

/-- The inductive invariant for claim C9: on-hand inventory, every pipeline
quantity and the holding accumulator are non-negative. -/
def GoodState (s : SimState) : Prop :=
  0 ≤ s.inventory ∧ (∀ p ∈ s.pipeline, (0:ℤ) ≤ p.2) ∧ 0 ≤ s.total_holding

section ProjectionLemmas

variable (agent : RetailDecisionAgent) (sqrt : ℚ → ℚ) (demand_history : List ℚ)
variable (inventory_on_hand inventory_on_order : ℚ) (lead_time_history : Option (List ℚ))

lemma recommend_forecast :
    (agent.recommend sqrt demand_history inventory_on_hand inventory_on_order
      lead_time_history).forecast_demand
      = expSmoothingForecast agent.alpha (recentWindow agent.demand_window demand_history) := rfl

lemma recommend_std :
    (agent.recommend sqrt demand_history inventory_on_hand inventory_on_order
      lead_time_history).demand_std
      = recentStd sqrt (recentWindow agent.demand_window demand_history) := rfl

lemma recommend_lead :
    (agent.recommend sqrt demand_history inventory_on_hand inventory_on_order
      lead_time_history).estimated_lead_time_days = leadTimeOf lead_time_history := rfl

lemma recommend_safety :
    (agent.recommend sqrt demand_history inventory_on_hand inventory_on_order
      lead_time_history).safety_stock
      = zOf agent.service_level
        * recentStd sqrt (recentWindow agent.demand_window demand_history)
        * sqrt (leadTimeOf lead_time_history) := rfl

lemma recommend_reorder :
    (agent.recommend sqrt demand_history inventory_on_hand inventory_on_order
      lead_time_history).reorder_point
      = expSmoothingForecast agent.alpha (recentWindow agent.demand_window demand_history)
          * leadTimeOf lead_time_history
        + zOf agent.service_level
          * recentStd sqrt (recentWindow agent.demand_window demand_history)
          * sqrt (leadTimeOf lead_time_history) := rfl

lemma recommend_target :
    (agent.recommend sqrt demand_history inventory_on_hand inventory_on_order
      lead_time_history).target_stock
      = expSmoothingForecast agent.alpha (recentWindow agent.demand_window demand_history)
          * (leadTimeOf lead_time_history + (agent.review_period_days : ℚ))
        + zOf agent.service_level
          * recentStd sqrt (recentWindow agent.demand_window demand_history)
          * sqrt (leadTimeOf lead_time_history) := rfl

lemma recommend_qty :
    (agent.recommend sqrt demand_history inventory_on_hand inventory_on_order
      lead_time_history).recommended_order_qty
      = Int.ceil (max 0
          ((agent.recommend sqrt demand_history inventory_on_hand inventory_on_order
              lead_time_history).target_stock
            - (inventory_on_hand + inventory_on_order))) := rfl

lemma recommend_qty_nonneg :
    0 ≤ (agent.recommend sqrt demand_history inventory_on_hand inventory_on_order
      lead_time_history).recommended_order_qty := by
  rw [recommend_qty]
  exact Int.ceil_nonneg (le_max_left 0 _)

end ProjectionLemmas

section SimLemmas

variable (agent : RetailDecisionAgent) (sqrt : ℚ → ℚ) (demand : List ℚ) (L : ℤ)

lemma simDay_pipeline (s : SimState) (day : ℕ) :
    (simDay agent sqrt demand L s day).pipeline
      = if orderTriggered agent sqrt demand L day s
        then onOrderPipeline day s.pipeline
          ++ [((day : ℤ) + L, (dayDecision agent sqrt demand L day s).recommended_order_qty)]
        else onOrderPipeline day s.pipeline := rfl

lemma simDay_inventory (s : SimState) (day : ℕ) :
    (simDay agent sqrt demand L s day).inventory
      = if demand.getD day 0 ≤ afterArrivalInventory day s
        then afterArrivalInventory day s - demand.getD day 0 else 0 := rfl

lemma simDay_holding (s : SimState) (day : ℕ) :
    (simDay agent sqrt demand L s day).total_holding
      = s.total_holding + (simDay agent sqrt demand L s day).inventory := rfl

lemma simTrace_nil (s : SimState) : simTrace agent sqrt demand L [] s = s := rfl

lemma simTrace_cons (e : ℕ) (es : List ℕ) (s : SimState) :
    simTrace agent sqrt demand L (e :: es) s
      = simTrace agent sqrt demand L es (simDay agent sqrt demand L s e) := rfl

lemma mem_arrivalsList (day : ℕ) (pl : List (ℤ × ℤ)) (p : ℤ × ℤ) :
    p ∈ arrivalsList day pl ↔ p ∈ pl ∧ p.1 = (day : ℤ) := by
  simp [arrivalsList, List.mem_filter]

lemma mem_onOrderPipeline (day : ℕ) (pl : List (ℤ × ℤ)) (p : ℤ × ℤ) :
    p ∈ onOrderPipeline day pl ↔ p ∈ pl ∧ p.1 ≠ (day : ℤ) := by
  simp [onOrderPipeline, List.mem_filter]

lemma simDay_pipeline_cases (s : SimState) (day : ℕ) (p : ℤ × ℤ)
    (hp : p ∈ (simDay agent sqrt demand L s day).pipeline) :
    (p ∈ s.pipeline ∧ p.1 ≠ (day : ℤ)) ∨ p.1 = (day : ℤ) + L := by
  rw [simDay_pipeline] at hp
  split at hp
  · rcases List.mem_append.1 hp with h | h
    · exact Or.inl ((mem_onOrderPipeline day s.pipeline p).1 h)
    · rcases List.mem_singleton.1 h with rfl
      exact Or.inr rfl
  · exact Or.inl ((mem_onOrderPipeline day s.pipeline p).1 hp)

lemma simDay_pipeline_keep (s : SimState) (day : ℕ) (p : ℤ × ℤ)
    (hp : p ∈ s.pipeline) (hne : p.1 ≠ (day : ℤ)) :
    p ∈ (simDay agent sqrt demand L s day).pipeline := by
  rw [simDay_pipeline]
  have hmem : p ∈ onOrderPipeline day s.pipeline :=
    (mem_onOrderPipeline day s.pipeline p).2 ⟨hp, hne⟩
  split
  · exact List.mem_append_left _ hmem
  · exact hmem

lemma simDay_pipeline_not_new (s : SimState) (day : ℕ) (p : ℤ × ℤ)
    (hp : p ∉ s.pipeline) (hne : p.1 ≠ (day : ℤ) + L) :
    p ∉ (simDay agent sqrt demand L s day).pipeline := by
  rw [simDay_pipeline]
  split
  · intro hmem
    rcases List.mem_append.1 hmem with h | h
    · exact hp ((mem_onOrderPipeline day s.pipeline p).1 h).1
    · rcases List.mem_singleton.1 h with rfl
      exact hne rfl
  · intro hmem
    exact hp ((mem_onOrderPipeline day s.pipeline p).1 hmem).1

lemma simDay_removes (s : SimState) (day : ℕ) (p : ℤ × ℤ)
    (hL : 1 ≤ L) (ha : p.1 = (day : ℤ)) :
    p ∉ (simDay agent sqrt demand L s day).pipeline := by
  intro hmem
  rcases simDay_pipeline_cases agent sqrt demand L s day p hmem with ⟨_, hne⟩ | hnew
  · exact hne ha
  · omega

lemma simTrace_keep (days : List ℕ) (s : SimState) (p : ℤ × ℤ)
    (hp : p ∈ s.pipeline) (hd : ∀ e ∈ days, p.1 ≠ (e : ℤ)) :
    p ∈ (simTrace agent sqrt demand L days s).pipeline := by
  induction days generalizing s with
  | nil => exact hp
  | cons e es ih =>
    rw [simTrace_cons]
    exact ih _ (simDay_pipeline_keep agent sqrt demand L s e p hp
      (hd e (List.mem_cons_self e es))) (fun x hx => hd x (List.mem_cons_of_mem e hx))

lemma simTrace_not_mem (days : List ℕ) (s : SimState) (p : ℤ × ℤ)
    (hL : 1 ≤ L) (hp : p ∉ s.pipeline) (hd : ∀ e ∈ days, p.1 ≤ (e : ℤ)) :
    p ∉ (simTrace agent sqrt demand L days s).pipeline := by
  induction days generalizing s with
  | nil => exact hp
  | cons e es ih =>
    rw [simTrace_cons]
    have he : p.1 ≤ (e : ℤ) := hd e (List.mem_cons_self e es)
    exact ih _ (simDay_pipeline_not_new agent sqrt demand L s e p hp (by omega))
      (fun x hx => hd x (List.mem_cons_of_mem e hx))

lemma afterArrival_eq_add_sum (day : ℕ) (s : SimState) :
    afterArrivalInventory day s
      = s.inventory + (((arrivalsList day s.pipeline).map Prod.snd).sum : ℚ) := by
  rw [afterArrivalInventory]
  split
  · rename_i h
    rw [List.isEmpty_iff] at h
    rw [h]
    simp
  · rfl

end SimLemmas

lemma smoothing_foldl_replicate (a c : ℚ) (n : ℕ) :
    List.foldl (fun level value => a * value + (1 - a) * level) c (List.replicate n c) = c := by
  induction n with
  | zero => rfl
  | succ n ih =>
    rw [List.replicate_succ, List.foldl_cons]
    have h : a * c + (1 - a) * c = c := by ring
    rw [h, ih]

lemma listMean_replicate (n : ℕ) (c : ℚ) (hn : n ≠ 0) :
    listMean (List.replicate n c) = c := by
  have hc : ((n:ℚ)) ≠ 0 := Nat.cast_ne_zero.mpr hn
  simp [listMean, List.sum_replicate, nsmul_eq_mul]
  field_simp

lemma pvariance_replicate (n : ℕ) (c : ℚ) :
    pvariance (List.replicate n c) = 0 := by
  rcases Nat.eq_zero_or_pos n with h | h
  · subst h; simp [pvariance, listMean]
  · simp [pvariance, List.map_replicate, listMean_replicate n c h.ne', sub_self,
      List.sum_replicate]

/-- Claim C1: with α = 0.35, window 28, review period 7 and any supported
service level, a demand history of 28 identical observations of 20.0 and a
lead-time history giving lead time 5 produce a decision with forecast exactly
20.0, demand std 0 (the source's `math.sqrt 0 = 0` is the hypothesis `hsq`),
safety stock 0 for every supported service level, reorder point 100.0 and
target stock 240.0 (protection days 12). -/
theorem scenarioA_constant_demand (sl : ℚ) (hsl : sl ∈ SERVICE_Z.map Prod.fst)
    (sqrt : ℚ → ℚ) (hsq : sqrt 0 = 0) (inventory_on_hand inventory_on_order : ℚ) :
    ((⟨sl, 7, 35/100, 28⟩ : RetailDecisionAgent).recommend sqrt (List.replicate 28 20)
        inventory_on_hand inventory_on_order (some [5])).forecast_demand = 20
    ∧ ((⟨sl, 7, 35/100, 28⟩ : RetailDecisionAgent).recommend sqrt (List.replicate 28 20)
        inventory_on_hand inventory_on_order (some [5])).demand_std = 0
    ∧ ((⟨sl, 7, 35/100, 28⟩ : RetailDecisionAgent).recommend sqrt (List.replicate 28 20)
        inventory_on_hand inventory_on_order (some [5])).estimated_lead_time_days = 5
    ∧ ((⟨sl, 7, 35/100, 28⟩ : RetailDecisionAgent).recommend sqrt (List.replicate 28 20)
        inventory_on_hand inventory_on_order (some [5])).safety_stock = 0
    ∧ ((⟨sl, 7, 35/100, 28⟩ : RetailDecisionAgent).recommend sqrt (List.replicate 28 20)
        inventory_on_hand inventory_on_order (some [5])).reorder_point = 100
    ∧ ((⟨sl, 7, 35/100, 28⟩ : RetailDecisionAgent).recommend sqrt (List.replicate 28 20)
        inventory_on_hand inventory_on_order (some [5])).target_stock = 240 := by
  have hw : recentWindow 28 (List.replicate 28 (20:ℚ)) = List.replicate 28 20 := rfl
  have hpv : pvariance (List.replicate 28 (20:ℚ)) = 0 := pvariance_replicate 28 20
  have hlen : ¬ ((List.replicate 28 (20:ℚ)).length < 2) := by simp
  have hstd : recentStd sqrt (List.replicate 28 (20:ℚ)) = 0 := by
    rw [recentStd, if_neg hlen, hpv, hsq]
  have hf : expSmoothingForecast (35/100) (List.replicate 28 (20:ℚ)) = 20 := by
    rw [show List.replicate 28 (20:ℚ) = 20 :: List.replicate 27 20 from rfl,
      expSmoothingForecast, smoothing_foldl_replicate]
    norm_num
  have hlt : leadTimeOf (some [5]) = 5 := by
    norm_num [leadTimeOf, leadHistOrDefault, listMean]
  refine ⟨?_, ?_, ?_, ?_, ?_, ?_⟩
  · show expSmoothingForecast (35/100) (recentWindow 28 (List.replicate 28 20)) = 20
    rw [hw, hf]
  · show recentStd sqrt (recentWindow 28 (List.replicate 28 20)) = 0
    rw [hw, hstd]
  · show leadTimeOf (some [5]) = 5
    exact hlt
  · show zOf sl * recentStd sqrt (recentWindow 28 (List.replicate 28 20))
        * sqrt (leadTimeOf (some [5])) = 0
    rw [hw, hstd]
    ring
  · show expSmoothingForecast (35/100) (recentWindow 28 (List.replicate 28 20))
          * leadTimeOf (some [5])
        + zOf sl * recentStd sqrt (recentWindow 28 (List.replicate 28 20))
          * sqrt (leadTimeOf (some [5])) = 100
    rw [hw, hf, hstd, hlt]
    simp only [mul_zero, zero_mul, add_zero]
    norm_num
  · show expSmoothingForecast (35/100) (recentWindow 28 (List.replicate 28 20))
          * (leadTimeOf (some [5]) + ((7:ℤ):ℚ))
        + zOf sl * recentStd sqrt (recentWindow 28 (List.replicate 28 20))
          * sqrt (leadTimeOf (some [5])) = 240
    rw [hw, hf, hstd, hlt]
    simp only [mul_zero, zero_mul, add_zero]
    norm_num

/-- Witness for C1 at service level 0.95 with the constantly-zero square root. -/
theorem scenarioA_constant_demand_witness :
    ((95:ℚ)/100) ∈ SERVICE_Z.map Prod.fst
    ∧ ((fun _ : ℚ => (0:ℚ)) 0 = 0)
    ∧ ((⟨95/100, 7, 35/100, 28⟩ : RetailDecisionAgent).recommend (fun _ => 0)
        (List.replicate 28 20) 120 20 (some [5])).target_stock = 240 := by
  have hmem : ((95:ℚ)/100) ∈ SERVICE_Z.map Prod.fst := by norm_num [SERVICE_Z]
  exact ⟨hmem, rfl,
    (scenarioA_constant_demand (95/100) hmem (fun _ => 0) rfl 120 20).2.2.2.2.2⟩

/-- Claim C2: the recommended order quantity is the ceiling of
max(0, target_stock − net_stock) with net_stock = on-hand + on-order; it is
always a non-negative integer, and it is exactly 0 whenever the net stock is
at least the target stock. -/
theorem order_qty_formula (agent : RetailDecisionAgent) (sqrt : ℚ → ℚ)
    (demand_history : List ℚ) (inventory_on_hand inventory_on_order : ℚ)
    (lead_time_history : Option (List ℚ)) :
    (agent.recommend sqrt demand_history inventory_on_hand inventory_on_order
        lead_time_history).recommended_order_qty
      = Int.ceil (max 0 ((agent.recommend sqrt demand_history inventory_on_hand
          inventory_on_order lead_time_history).target_stock
          - (inventory_on_hand + inventory_on_order)))
    ∧ 0 ≤ (agent.recommend sqrt demand_history inventory_on_hand inventory_on_order
        lead_time_history).recommended_order_qty
    ∧ ((agent.recommend sqrt demand_history inventory_on_hand inventory_on_order
          lead_time_history).target_stock ≤ inventory_on_hand + inventory_on_order →
        (agent.recommend sqrt demand_history inventory_on_hand inventory_on_order
          lead_time_history).recommended_order_qty = 0) := by
  refine ⟨recommend_qty agent sqrt demand_history inventory_on_hand inventory_on_order
    lead_time_history, recommend_qty_nonneg agent sqrt demand_history inventory_on_hand
    inventory_on_order lead_time_history, ?_⟩
  intro h
  rw [recommend_qty, max_eq_left (sub_nonpos.mpr h), Int.ceil_zero]

/-- Witness for C2 on an empty history, where the target stock is 0 and the
net stock (5) exceeds it. -/
theorem order_qty_formula_witness :
    ((⟨19/20, 7, 35/100, 28⟩ : RetailDecisionAgent).recommend (fun _ => 0) [] 5 0
        none).target_stock ≤ 5 + 0
    ∧ 0 ≤ ((⟨19/20, 7, 35/100, 28⟩ : RetailDecisionAgent).recommend (fun _ => 0) [] 5 0
        none).recommended_order_qty
    ∧ ((⟨19/20, 7, 35/100, 28⟩ : RetailDecisionAgent).recommend (fun _ => 0) [] 5 0
        none).recommended_order_qty = 0 := by
  have ht : ((⟨19/20, 7, 35/100, 28⟩ : RetailDecisionAgent).recommend (fun _ => 0) [] 5 0
      none).target_stock = 0 := by
    rw [recommend_target]
    norm_num [recentWindow, expSmoothingForecast, recentStd]
  have hle : ((⟨19/20, 7, 35/100, 28⟩ : RetailDecisionAgent).recommend (fun _ => 0) [] 5 0
      none).target_stock ≤ 5 + 0 := by
    rw [ht]; norm_num
  exact ⟨hle, (order_qty_formula _ _ _ _ _ _).2.1, (order_qty_formula _ _ _ _ _ _).2.2 hle⟩

/-- Claim C5: construction fails with the error message enumerating exactly
the table's keys — which are 0.80, 0.85, 0.90, 0.95, 0.97, 0.99 — for every
service level outside the table, and succeeds for every key of the table. -/
theorem service_level_validation (review_period_days : ℤ) (alpha : ℚ)
    (demand_window : ℕ) :
    (∀ sl : ℚ, sl ∉ SERVICE_Z.map Prod.fst →
        RetailDecisionAgent.init sl review_period_days alpha demand_window
          = Except.error ("service_level inválido. Use um de: " ++ validLevelsStr))
    ∧ validLevelsStr
        = String.intercalate ", " ((SERVICE_Z.map Prod.fst).map (fun q => toString q))
    ∧ SERVICE_Z.map Prod.fst = [80/100, 85/100, 90/100, 95/100, 97/100, 99/100]
    ∧ (∀ sl ∈ SERVICE_Z.map Prod.fst,
        RetailDecisionAgent.init sl review_period_days alpha demand_window
          = Except.ok ⟨sl, review_period_days, alpha, demand_window⟩) := by
  refine ⟨?_, rfl, by norm_num [SERVICE_Z], ?_⟩
  · intro sl h
    simp only [RetailDecisionAgent.init, if_neg h]
  · intro sl h
    simp only [RetailDecisionAgent.init, if_pos h]

/-- Witness for C5: 0.93 is rejected with the enumerating message, 0.95 is
accepted. -/
theorem service_level_validation_witness :
    (((93:ℚ)/100) ∉ SERVICE_Z.map Prod.fst)
    ∧ RetailDecisionAgent.init (93/100) 7 (35/100) 28
        = Except.error ("service_level inválido. Use um de: " ++ validLevelsStr)
    ∧ RetailDecisionAgent.init (95/100) 7 (35/100) 28
        = Except.ok ⟨95/100, 7, 35/100, 28⟩ := by
  have h93 : ((93:ℚ)/100) ∉ SERVICE_Z.map Prod.fst := by norm_num [SERVICE_Z]
  have h95 : ((95:ℚ)/100) ∈ SERVICE_Z.map Prod.fst := by norm_num [SERVICE_Z]
  exact ⟨h93, (service_level_validation 7 (35/100) 28).1 _ h93,
    (service_level_validation 7 (35/100) 28).2.2.2 _ h95⟩

/-- Claim C6: an absent or empty lead-time history yields an estimated lead
time of exactly 7 days; a non-empty one yields the arithmetic mean of the
observations floored at 1 day. -/
theorem lead_time_estimation (agent : RetailDecisionAgent) (sqrt : ℚ → ℚ)
    (demand_history : List ℚ) (inventory_on_hand inventory_on_order : ℚ) :
    (∀ lth : Option (List ℚ), lth = none ∨ lth = some [] →
        (agent.recommend sqrt demand_history inventory_on_hand inventory_on_order
          lth).estimated_lead_time_days = 7)
    ∧ (∀ l : List ℚ, l ≠ [] →
        (agent.recommend sqrt demand_history inventory_on_hand inventory_on_order
          (some l)).estimated_lead_time_days = max 1 (l.sum / (l.length : ℚ))) := by
  constructor
  · rintro lth (rfl | rfl) <;>
      · rw [recommend_lead]
        norm_num [leadTimeOf, leadHistOrDefault, listMean]
  · intro l hl
    rw [recommend_lead]
    cases l with
    | nil => exact absurd rfl hl
    | cons x xs => rfl

/-- Witness for C6 at a missing history and at the history [3, 5]. -/
theorem lead_time_estimation_witness :
    ((⟨95/100, 7, 35/100, 28⟩ : RetailDecisionAgent).recommend (fun _ => 0) [] 0 0
        none).estimated_lead_time_days = 7
    ∧ ((⟨95/100, 7, 35/100, 28⟩ : RetailDecisionAgent).recommend (fun _ => 0) [] 0 0
        (some [3, 5])).estimated_lead_time_days
      = max 1 (([(3:ℚ), 5]).sum / (([(3:ℚ), 5]).length : ℚ)) := by
  exact ⟨(lead_time_estimation _ _ _ _ _).1 none (Or.inl rfl),
    (lead_time_estimation _ _ _ _ _).2 [3, 5] (by simp)⟩

/-- Claim C7: an empty demand history gives forecast 0, demand std 0, reorder
point 0, target stock 0 and recommended quantity 0 for any non-negative net
stock — degenerate inputs degrade to zeros instead of raising. -/
theorem empty_history_zero_decision (agent : RetailDecisionAgent) (sqrt : ℚ → ℚ)
    (inventory_on_hand inventory_on_order : ℚ) (lead_time_history : Option (List ℚ))
    (hi : 0 ≤ inventory_on_hand) (ho : 0 ≤ inventory_on_order) :
    (agent.recommend sqrt [] inventory_on_hand inventory_on_order
        lead_time_history).forecast_demand = 0
    ∧ (agent.recommend sqrt [] inventory_on_hand inventory_on_order
        lead_time_history).demand_std = 0
    ∧ (agent.recommend sqrt [] inventory_on_hand inventory_on_order
        lead_time_history).reorder_point = 0
    ∧ (agent.recommend sqrt [] inventory_on_hand inventory_on_order
        lead_time_history).target_stock = 0
    ∧ (agent.recommend sqrt [] inventory_on_hand inventory_on_order
        lead_time_history).recommended_order_qty = 0 := by
  have hw : recentWindow agent.demand_window ([] : List ℚ) = [] := rfl
  have hf : expSmoothingForecast agent.alpha [] = 0 := rfl
  have hs : recentStd sqrt ([] : List ℚ) = 0 := rfl
  have ht : (agent.recommend sqrt [] inventory_on_hand inventory_on_order
      lead_time_history).target_stock = 0 := by
    rw [recommend_target, hw, hf, hs]
    ring
  refine ⟨?_, ?_, ?_, ht, ?_⟩
  · rw [recommend_forecast, hw, hf]
  · rw [recommend_std, hw, hs]
  · rw [recommend_reorder, hw, hf, hs]
    ring
  · rw [recommend_qty, ht,
      max_eq_left (by linarith : (0:ℚ) - (inventory_on_hand + inventory_on_order) ≤ 0),
      Int.ceil_zero]

/-- Witness for C7 at on-hand 3 and on-order 4. -/
theorem empty_history_zero_decision_witness :
    ((0:ℚ) ≤ 3) ∧ ((0:ℚ) ≤ 4)
    ∧ ((⟨95/100, 7, 35/100, 28⟩ : RetailDecisionAgent).recommend (fun _ => 0) [] 3 4
        none).recommended_order_qty = 0 := by
  exact ⟨by norm_num, by norm_num,
    (empty_history_zero_decision _ (fun _ => 0) 3 4 none (by norm_num)
      (by norm_num)).2.2.2.2⟩

/-- Claim C8 (counterexample): a policy constructed with the valid service
level 0.95 and the negative review period −1 is accepted, refuting the claim
that the core rejects configurations with review_period_days < 0. -/
theorem review_period_negative_accepted :
    ((95:ℚ)/100) ∈ SERVICE_Z.map Prod.fst
    ∧ ((-1:ℤ) < 0)
    ∧ RetailDecisionAgent.init (95/100) (-1) (35/100) 28
        = Except.ok ⟨95/100, -1, 35/100, 28⟩ := by
  have h : ((95:ℚ)/100) ∈ SERVICE_Z.map Prod.fst := by norm_num [SERVICE_Z]
  exact ⟨h, by norm_num, by simp only [RetailDecisionAgent.init, if_pos h]⟩

/-- Claim C8 (amended): construction validates only the service level; with a
valid service level it succeeds for every review_period_days, including every
negative one — review_period_days is not validated by the core. -/
theorem review_period_not_validated (sl : ℚ) (hsl : sl ∈ SERVICE_Z.map Prod.fst)
    (review_period_days : ℤ) (hrp : review_period_days < 0) (alpha : ℚ)
    (demand_window : ℕ) :
    RetailDecisionAgent.init sl review_period_days alpha demand_window
      = Except.ok ⟨sl, review_period_days, alpha, demand_window⟩ := by
  simp only [RetailDecisionAgent.init, if_pos hsl]

/-- Witness for the amended C8 at service level 0.95 and review period −2. -/
theorem review_period_not_validated_witness :
    (((95:ℚ)/100) ∈ SERVICE_Z.map Prod.fst) ∧ ((-2:ℤ) < 0)
    ∧ RetailDecisionAgent.init (95/100) (-2) (35/100) 28
        = Except.ok ⟨95/100, -2, 35/100, 28⟩ := by
  have h : ((95:ℚ)/100) ∈ SERVICE_Z.map Prod.fst := by norm_num [SERVICE_Z]
  exact ⟨h, by norm_num, review_period_not_validated (95/100) h (-2) (by norm_num)
    (35/100) 28⟩

/-- Claim C3 (amended): the start day is max(30, min(45, n // 3)); the
returned `periods` is n − start as an integer, which whenever start ≤ n is
exactly the number of simulated days; for n = 50 the start is 30 and periods
is exactly 20 (not 17 — the spec's own formula gives 50 // 3 = 16, so
start = 30); the rates are stockout_days/periods and total_holding/periods
when periods ≠ 0, and both default to 0 when periods = 0. -/
theorem simulation_periods_and_rates (agent : RetailDecisionAgent) (sqrt : ℚ → ℚ)
    (demand : List ℚ) (initial_inventory : ℚ) (L : ℤ) :
    (run_validation agent sqrt demand initial_inventory L).periods
        = (demand.length : ℤ) - ((max 30 (min 45 (demand.length / 3)) : ℕ) : ℤ)
    ∧ (runStart demand ≤ demand.length →
        (run_validation agent sqrt demand initial_inventory L).periods
          = ((runDays demand).length : ℤ))
    ∧ (demand.length = 50 →
        (run_validation agent sqrt demand initial_inventory L).periods = 20)
    ∧ ((run_validation agent sqrt demand initial_inventory L).periods ≠ 0 →
        (run_validation agent sqrt demand initial_inventory L).stockout_rate
            = ((runFinal agent sqrt demand initial_inventory L).stockout_days : ℚ)
              / ((run_validation agent sqrt demand initial_inventory L).periods : ℚ)
          ∧ (run_validation agent sqrt demand initial_inventory L).avg_ending_inventory
            = (runFinal agent sqrt demand initial_inventory L).total_holding
              / ((run_validation agent sqrt demand initial_inventory L).periods : ℚ))
    ∧ ((run_validation agent sqrt demand initial_inventory L).periods = 0 →
        (run_validation agent sqrt demand initial_inventory L).stockout_rate = 0
          ∧ (run_validation agent sqrt demand initial_inventory L).avg_ending_inventory
            = 0) := by
  refine ⟨rfl, ?_, ?_, ?_, ?_⟩
  · intro h
    show runPeriods demand = ((runDays demand).length : ℤ)
    simp only [runPeriods, runDays, List.length_range']
    omega
  · intro h50
    show runPeriods demand = 20
    simp only [runPeriods, runStart, h50]
    decide
  · intro hne
    have hne2 : runPeriods demand ≠ 0 := hne
    constructor
    · show (if runPeriods demand = 0 then (0:ℚ)
          else ((runFinal agent sqrt demand initial_inventory L).stockout_days : ℚ)
            / ((runPeriods demand : ℤ) : ℚ)) = _
      rw [if_neg hne2]
      rfl
    · show (if runPeriods demand = 0 then (0:ℚ)
          else (runFinal agent sqrt demand initial_inventory L).total_holding
            / ((runPeriods demand : ℤ) : ℚ)) = _
      rw [if_neg hne2]
      rfl
  · intro h0
    have h02 : runPeriods demand = 0 := h0
    constructor
    · show (if runPeriods demand = 0 then (0:ℚ)
          else ((runFinal agent sqrt demand initial_inventory L).stockout_days : ℚ)
            / ((runPeriods demand : ℤ) : ℚ)) = 0
      rw [if_pos h02]
    · show (if runPeriods demand = 0 then (0:ℚ)
          else (runFinal agent sqrt demand initial_inventory L).total_holding
            / ((runPeriods demand : ℤ) : ℚ)) = 0
      rw [if_pos h02]

/-- Claim C3 (counterexample): over a 50-day series the simulator reports 20
periods, not the 17 the spec computes for its own formula. -/
theorem simulation_periods_len50_counterexample :
    (run_validation ⟨95/100, 7, 35/100, 28⟩ (fun _ => 0) (List.replicate 50 0) 120
        5).periods = 20
    ∧ (run_validation ⟨95/100, 7, 35/100, 28⟩ (fun _ => 0) (List.replicate 50 0) 120
        5).periods ≠ 17 := by
  have h : (run_validation ⟨95/100, 7, 35/100, 28⟩ (fun _ => 0) (List.replicate 50 0)
      120 5).periods = 20 := by
    show runPeriods (List.replicate 50 (0:ℚ)) = 20
    simp only [runPeriods, runStart, List.length_replicate]
    decide
  refine ⟨h, ?_⟩
  rw [h]
  decide

/-- Witness for the amended C3 on a concrete 50-day series. -/
theorem simulation_periods_and_rates_witness :
    (List.replicate 50 (0:ℚ)).length = 50
    ∧ (run_validation ⟨9/10, 7, 35/100, 28⟩ (fun _ => 0) (List.replicate 50 0) 120
        5).periods = 20 := by
  have h : (List.replicate 50 (0:ℚ)).length = 50 := by simp
  exact ⟨h, (simulation_periods_and_rates _ _ _ _ _).2.2.1 h⟩

/-- Claim C4: an order placed on day d is a pipeline entry with arrival day
exactly d + L; an entry contributes an arrival on day e iff e is its arrival
day; arrivals increase on-hand inventory by exactly their total quantity; on
its arrival day an entry is removed (for L ≥ 1); an entry persists across all
days other than its arrival day; and once absent it never reappears on days at
or after its arrival day (for L ≥ 1), so it is never double counted. -/
theorem pipeline_arrival_exact (agent : RetailDecisionAgent) (sqrt : ℚ → ℚ)
    (demand : List ℚ) (L : ℤ) :
    (∀ (day : ℕ) (s : SimState) (p : ℤ × ℤ),
        p ∈ (simDay agent sqrt demand L s day).pipeline →
          (p ∈ s.pipeline ∧ p.1 ≠ (day : ℤ)) ∨ p.1 = (day : ℤ) + L)
    ∧ (∀ (day : ℕ) (pl : List (ℤ × ℤ)) (p : ℤ × ℤ),
        p ∈ arrivalsList day pl ↔ p ∈ pl ∧ p.1 = (day : ℤ))
    ∧ (∀ (day : ℕ) (s : SimState),
        afterArrivalInventory day s
          = s.inventory + (((arrivalsList day s.pipeline).map Prod.snd).sum : ℚ))
    ∧ (∀ (day : ℕ) (s : SimState) (p : ℤ × ℤ), 1 ≤ L → p.1 = (day : ℤ) →
        p ∉ (simDay agent sqrt demand L s day).pipeline)
    ∧ (∀ (days : List ℕ) (s : SimState) (p : ℤ × ℤ), p ∈ s.pipeline →
        (∀ e ∈ days, p.1 ≠ (e : ℤ)) →
        p ∈ (simTrace agent sqrt demand L days s).pipeline)
    ∧ (∀ (days : List ℕ) (s : SimState) (p : ℤ × ℤ), 1 ≤ L → p ∉ s.pipeline →
        (∀ e ∈ days, p.1 ≤ (e : ℤ)) →
        p ∉ (simTrace agent sqrt demand L days s).pipeline) :=
  ⟨fun day s p hp => simDay_pipeline_cases agent sqrt demand L s day p hp,
    fun day pl p => mem_arrivalsList day pl p,
    fun day s => afterArrival_eq_add_sum day s,
    fun day s p hL ha => simDay_removes agent sqrt demand L s day p hL ha,
    fun days s p hp hd => simTrace_keep agent sqrt demand L days s p hp hd,
    fun days s p hL hp hd => simTrace_not_mem agent sqrt demand L days s p hL hp hd⟩

/-- Witness for C4 with L = 1: an entry due on day 6 survives days 4 and 5
unchanged, and is removed by its arrival on day 6. -/
theorem pipeline_arrival_exact_witness :
    ((1:ℤ) ≤ 1)
    ∧ ((6:ℤ), (3:ℤ)) ∈ (simTrace ⟨95/100, 7, 35/100, 28⟩ (fun _ => 0) [] 1 [4, 5]
        ⟨0, [(6, 3)], 0, 0, 0, 0⟩).pipeline
    ∧ ((6:ℤ), (3:ℤ)) ∉ (simDay ⟨95/100, 7, 35/100, 28⟩ (fun _ => 0) [] 1
        ⟨0, [(6, 3)], 0, 0, 0, 0⟩ 6).pipeline := by
  refine ⟨le_refl 1, ?_, ?_⟩
  · exact (pipeline_arrival_exact _ _ _ _).2.2.2.2.1 [4, 5] _ ((6:ℤ), (3:ℤ))
      (by decide) (by decide)
  · exact (pipeline_arrival_exact _ _ _ _).2.2.2.1 6 _ ((6:ℤ), (3:ℤ))
      (le_refl 1) (by decide)

/-- Claim C9: with non-negative initial inventory and demand, on-hand
inventory is non-negative at every checkpoint of every simulated day (after
arrivals, after demand realization, hence at holding accrual), so the holding
total and the average ending inventory are also non-negative. -/
theorem inventory_nonneg_invariant (agent : RetailDecisionAgent) (sqrt : ℚ → ℚ)
    (demand : List ℚ) (initial_inventory : ℚ) (L : ℤ)
    (h0 : 0 ≤ initial_inventory) (hd : ∀ x ∈ demand, 0 ≤ x) :
    (∀ (day : ℕ) (s : SimState), GoodState s → 0 ≤ afterArrivalInventory day s)
    ∧ (∀ (day : ℕ) (s : SimState), GoodState s →
        GoodState (simDay agent sqrt demand L s day))
    ∧ (∀ days : List ℕ,
        GoodState (simTrace agent sqrt demand L days (initState initial_inventory)))
    ∧ 0 ≤ (runFinal agent sqrt demand initial_inventory L).total_holding
    ∧ 0 ≤ (run_validation agent sqrt demand initial_inventory L).avg_ending_inventory := by
  have key1 : ∀ (day : ℕ) (s : SimState), GoodState s →
      0 ≤ afterArrivalInventory day s := by
    intro day s hs
    rw [afterArrival_eq_add_sum]
    refine add_nonneg hs.1 ?_
    refine Int.cast_nonneg.mpr (List.sum_nonneg ?_)
    intro q hq
    obtain ⟨p, hpmem, rfl⟩ := List.mem_map.1 hq
    exact hs.2.1 p ((mem_arrivalsList day s.pipeline p).1 hpmem).1
  have key2 : ∀ (day : ℕ) (s : SimState), GoodState s →
      GoodState (simDay agent sqrt demand L s day) := by
    intro day s hs
    have hinv2 : 0 ≤ (simDay agent sqrt demand L s day).inventory := by
      rw [simDay_inventory]
      split
      · rename_i h
        exact sub_nonneg.mpr h
      · exact le_refl 0
    refine ⟨hinv2, ?_, ?_⟩
    · intro p hp
      rw [simDay_pipeline] at hp
      split at hp
      · rcases List.mem_append.1 hp with h | h
        · exact hs.2.1 p ((mem_onOrderPipeline day s.pipeline p).1 h).1
        · rcases List.mem_singleton.1 h with rfl
          exact recommend_qty_nonneg _ _ _ _ _ _
      · exact hs.2.1 p ((mem_onOrderPipeline day s.pipeline p).1 hp).1
    · rw [simDay_holding]
      exact add_nonneg hs.2.2 hinv2
  have hinit : GoodState (initState initial_inventory) := by
    refine ⟨h0, ?_, le_refl 0⟩
    intro p hp
    simp [initState] at hp
  have key3 : ∀ (days : List ℕ) (s : SimState), GoodState s →
      GoodState (simTrace agent sqrt demand L days s) := by
    intro days
    induction days with
    | nil => intro s hs; exact hs
    | cons e es ih =>
      intro s hs
      rw [simTrace_cons]
      exact ih _ (key2 e s hs)
  have key4 : 0 ≤ (runFinal agent sqrt demand initial_inventory L).total_holding :=
    (key3 (runDays demand) _ hinit).2.2
  refine ⟨key1, key2, fun days => key3 days _ hinit, key4, ?_⟩
  show 0 ≤ (if runPeriods demand = 0 then (0:ℚ)
    else (runFinal agent sqrt demand initial_inventory L).total_holding
      / ((runPeriods demand : ℤ) : ℚ))
  split
  · exact le_refl 0
  · by_cases hsl : runStart demand ≤ demand.length
    · refine div_nonneg key4 (Int.cast_nonneg.mpr ?_)
      simp only [runPeriods]
      omega
    · push_neg at hsl
      have hnil : runDays demand = [] := by
        simp only [runDays, Nat.sub_eq_zero_of_le (le_of_lt hsl)]
        rfl
      have hfin : runFinal agent sqrt demand initial_inventory L
          = initState initial_inventory := by
        show simTrace agent sqrt demand L (runDays demand) (initState initial_inventory)
          = initState initial_inventory
        rw [hnil, simTrace_nil]
      rw [hfin]
      show (0:ℚ) ≤ 0 / ((runPeriods demand : ℤ) : ℚ)
      rw [zero_div]

/-- Witness for C9 on a short all-twos series with initial inventory 120. -/
theorem inventory_nonneg_invariant_witness :
    ((0:ℚ) ≤ 120) ∧ (∀ x ∈ List.replicate 3 (2:ℚ), 0 ≤ x)
    ∧ 0 ≤ (run_validation ⟨95/100, 7, 35/100, 28⟩ (fun _ => 0) (List.replicate 3 2)
        120 5).avg_ending_inventory := by
  have h0 : (0:ℚ) ≤ 120 := by norm_num
  have hd : ∀ x ∈ List.replicate 3 (2:ℚ), 0 ≤ x := by
    intro x hx
    rw [List.eq_of_mem_replicate hx]
    norm_num
  exact ⟨h0, hd, (inventory_nonneg_invariant _ _ _ _ 5 h0 hd).2.2.2.2⟩

/-- Claim C10: the simulator applies no ≥ 1 floor to its own lead time. With
L ≤ 0 an order placed on day d enters the pipeline with arrival day d + L ≤ d;
an entry whose arrival day lies strictly before a day is never matched by that
day's arrival check and is kept in the on-order pipeline; hence it stays in
the pipeline (still counted in on_order) across every later day, and its
quantity is never added to inventory. -/
theorem nonpositive_lead_never_arrives (agent : RetailDecisionAgent) (sqrt : ℚ → ℚ)
    (demand : List ℚ) (L : ℤ) (hL : L ≤ 0) :
    (∀ (day : ℕ) (s : SimState) (p : ℤ × ℤ),
        p ∈ (simDay agent sqrt demand L s day).pipeline →
          p ∈ s.pipeline ∨ p.1 ≤ (day : ℤ))
    ∧ (∀ (day : ℕ) (pl : List (ℤ × ℤ)) (p : ℤ × ℤ), p.1 < (day : ℤ) →
        p ∉ arrivalsList day pl)
    ∧ (∀ (day : ℕ) (s : SimState) (p : ℤ × ℤ), p ∈ s.pipeline → p.1 < (day : ℤ) →
        p ∈ onOrderPipeline day s.pipeline)
    ∧ (∀ (days : List ℕ) (s : SimState) (p : ℤ × ℤ), p ∈ s.pipeline →
        (∀ e ∈ days, p.1 < (e : ℤ)) →
        p ∈ (simTrace agent sqrt demand L days s).pipeline) := by
  refine ⟨?_, ?_, ?_, ?_⟩
  · intro day s p hp
    rcases simDay_pipeline_cases agent sqrt demand L s day p hp with ⟨h, _⟩ | h
    · exact Or.inl h
    · right
      omega
  · intro day pl p hlt hmem
    have := ((mem_arrivalsList day pl p).1 hmem).2
    omega
  · intro day s p hp hlt
    exact (mem_onOrderPipeline day s.pipeline p).2 ⟨hp, by omega⟩
  · intro days s p hp hlt
    refine simTrace_keep agent sqrt demand L days s p hp ?_
    intro e he
    have := hlt e he
    omega

/-- Witness for C10 with L = 0: an entry due on day 3 survives day 5. -/
theorem nonpositive_lead_never_arrives_witness :
    ((0:ℤ) ≤ 0)
    ∧ ((3:ℤ), (2:ℤ)) ∈ (simTrace ⟨95/100, 7, 35/100, 28⟩ (fun _ => 0) [] 0 [5]
        ⟨0, [(3, 2)], 0, 0, 0, 0⟩).pipeline :=
  ⟨le_refl 0, (nonpositive_lead_never_arrives _ _ _ 0 (le_refl 0)).2.2.2 [5] _
    ((3:ℤ), (2:ℤ)) (by decide) (by decide)⟩
